import Mathlib

/-!
Verification of the dolphin/delfin storage-management repository.

Text is modelled as `List Char` (the character sequence of a Python `str`);
Python `str.split`, `str.replace` and dictionary updates are embedded as
executable Lean functions.  Exceptions are embedded with `Except`.
-/

set_option maxRecDepth 200000

/-- Character-sequence representation of a Python string. -/
abbrev Str := List Char

/-- Convert a Lean string literal to the embedded representation. -/
def str (s : String) : Str := s.data

/-- Python `s.startswith(p)` on character sequences. -/
def isPrefixOfB : Str → Str → Bool
  | [], _ => true
  | _ :: _, [] => false
  | p :: ps, c :: cs => p == c && isPrefixOfB ps cs

/-- Worker for `pySplit`: scans one character per step.  `skip` counts
separator characters still to be consumed after a match was emitted. -/
def pySplitAux (sep : Str) (skip : Nat) (acc : Str) : Str → List Str
  | [] => [acc.reverse]
  | c :: cs =>
    if skip > 0 then pySplitAux sep (skip - 1) acc cs
    else if isPrefixOfB sep (c :: cs) then
      acc.reverse :: pySplitAux sep (sep.length - 1) [] cs
    else pySplitAux sep 0 (c :: acc) cs

/-- Python `s.split(sep)` for a non-empty separator: every occurrence splits,
empty pieces are kept.  (Python raises on an empty separator; the embedding
returns the whole input as one piece, and is never applied to one.) -/
def pySplit (s sep : Str) : List Str :=
  if sep.isEmpty then [s] else pySplitAux sep 0 [] s

/-- Python `s.split()` (no argument): split on runs of whitespace,
discarding empty pieces. -/
def pySplitWs (s : Str) : List Str :=
  let isWs : Char → Bool := fun c => c == ' ' || c == '\t' || c == '\r' || c == '\n'
  (s.splitOnP isWs).filter (fun p => ¬ p.isEmpty)

/-- Python `s.replace(" ", "")`: drop every space character. -/
def stripSpaces (s : Str) : Str := s.filter (fun c => c ≠ ' ')

/-- `List.intercalate` specialised to character sequences (joins the pieces
a split produced back together with the separator). -/
def joinWith (sep : Str) : List Str → Str
  | [] => []
  | [p] => p
  | p :: ps => p ++ sep ++ joinWith sep ps

/-- A Python dictionary from strings to strings: most recent binding first. -/
abbrev KVMap := List (Str × Str)

/-- Python `m[key] = value` (insert or overwrite). -/
def kvSet (m : KVMap) (k v : Str) : KVMap := (k, v) :: m

/-- Python `m.get(key)`: `none` when the key is absent. -/
def kvGet? (m : KVMap) (k : Str) : Option Str :=
  (m.find? (fun p => p.1 == k)).map (·.2)

/-- Python truthiness of `m.get(key)`: false for a missing key and for the
empty string. -/
def truthy (o : Option Str) : Bool :=
  match o with
  | none => false
  | some v => ¬ v.isEmpty

/-- Embedded exceptions.  `keyError` is a failed dictionary `[]` lookup,
`indexError` a failed list index, `valueError` a failed conversion,
`attributeError` a missing attribute/method, `nameError` an undefined
variable, `notFound` a missing persisted record.  Every one of them, when it
escapes an adapter operation, is re-raised by the handler wrappers as the
classified parse failure (`delfin.exception.InvalidResults`). -/
inductive PErr
  | keyError (k : Str)
  | indexError
  | valueError
  | attributeError
  | nameError
  | notFound
  deriving DecidableEq, Repr

instance exceptDecEq {ε α : Type} [DecidableEq ε] [DecidableEq α] :
    DecidableEq (Except ε α) := fun x y =>
  match x, y with
  | .ok a, .ok b =>
    if h : a = b then isTrue (by rw [h]) else isFalse (fun hc => h (Except.ok.inj hc))
  | .error a, .error b =>
    if h : a = b then isTrue (by rw [h]) else isFalse (fun hc => h (Except.error.inj hc))
  | .ok _, .error _ => isFalse (fun hc => Except.noConfusion hc)
  | .error _, .ok _ => isFalse (fun hc => Except.noConfusion hc)

/-- Python `m[key]`: raises `KeyError` when the key is absent. -/
def kvIndex (m : KVMap) (k : Str) : Except PErr Str :=
  match kvGet? m k with
  | some v => .ok v
  | none => .error (.keyError k)

/-- Python `l[i]`: raises `IndexError` when out of range. -/
def listIndex {α : Type} (l : List α) (i : Nat) : Except PErr α :=
  match l.get? i with
  | some v => .ok v
  | none => .error .indexError

/-- Modelled from the spec: `Tools.split_value_map` (not under `src/`) — the
colon-delimited key/value block parser of §4.1: the block is split into
lines, each line is split at the first colon delimiter (a colon followed by
a space), the key is the part before it with all spaces removed, the value
the part after it; a line without the delimiter maps the whole line (spaces
removed, so a bare trailing colon stays in the key) to the empty value.
The caller's dictionary is updated in place: bindings from earlier blocks
survive into later blocks unless overwritten. -/
def split_value_map (data : Str) (m : KVMap) : KVMap :=
  (pySplit data (str "\r\n")).foldl
    (fun acc line =>
      if line.isEmpty then acc
      else
        match pySplit line (str ": ") with
        | [] => acc
        | [only] => kvSet acc (stripSpaces only) []
        | k :: v :: vs => kvSet acc (stripSpaces k) (joinWith (str ": ") (v :: vs)))
    m

/-- Digits of the integral and fractional part of a decimal literal:
returns `(numerator, number of fractional digits)`. -/
def parseDecimalAux : Str → Nat → Nat → Option Nat → Option (Nat × Nat)
  | [], num, fracDigits, seenDot =>
    if seenDot.isSome then some (num, fracDigits) else some (num, 0)
  | c :: cs, num, fracDigits, seenDot =>
    if c == '.' then
      match seenDot with
      | some _ => none
      | none => parseDecimalAux cs num fracDigits (some 0)
    else if c.isDigit then
      parseDecimalAux cs (num * 10 + (c.toNat - '0'.toNat))
        (if seenDot.isSome then fracDigits + 1 else fracDigits) seenDot
    else none

/-- Split a capacity string into its numeric prefix and its unit suffix. -/
def spanDigits : Str → Str × Str
  | [] => ([], [])
  | c :: cs =>
    if c.isDigit || c == '.' then
      let (d, r) := spanDigits cs
      (c :: d, r)
    else ([], c :: cs)

/-- Modelled from the spec: the byte multiplier of a vendor capacity unit
suffix. -/
def unitFactor : Str → Option Nat
  | s =>
    if s == str "B" then some 1
    else if s == str "KB" then some 1024
    else if s == str "MB" then some (1024 ^ 2)
    else if s == str "GB" then some (1024 ^ 3)
    else if s == str "TB" then some (1024 ^ 4)
    else if s == str "PB" then some (1024 ^ 5)
    else none

/-- Modelled from the spec: `Tools.get_capacity_size` (not under `src/`) —
capacity-string-to-byte-count conversion of §4.1: a decimal number with a
vendor unit suffix (e.g. `"10.5GB"`) becomes an integer byte count, floored
after scaling by the unit. -/
def get_capacity_size (s : Str) : Except PErr Int :=
  let (digits, unit) := spanDigits s
  match parseDecimalAux digits 0 0 none, unitFactor unit with
  | some (num, fracDigits), some factor =>
    .ok (Int.ofNat (num * factor / 10 ^ fracDigits))
  | _, _ => .error .valueError

/-- One iteration of a per-record Python `for` loop: the per-block step `g`
consumes the shared key/value map and one block, and the records it yields
are appended to the list built so far. -/
def StepFold {σ ρ : Type} (g : σ → Str → Except PErr (σ × List ρ))
    (st : σ × List ρ) (blk : Str) : Except PErr (σ × List ρ) :=
  (g st.1 blk).map (fun r => (r.1, st.2 ++ r.2))

/-! ## Modelled vendor constants

`delfin/drivers/netapp/dataontap/constants.py` and
`delfin/common/constants.py` are not under `src/`; their values are modelled
from the spec.  The block split strings are chosen so that they overlap the
first key of each block exactly as the truncated key names used by the
handler (`'e'`, `'ame'`, `'k'`) require (spec §9: key names truncated by the
block-delimiter slicing). -/

/-- Modelled from the spec: block delimiter of `storage aggregate show`
output; eats the prefix of the leading `Aggregate:` key, leaving key `e`. -/
def AGGREGATE_SPLIT_STR : Str := str "Aggregat"

/-- Modelled from the spec: block delimiter of `storage pool show` output;
eats the prefix of the leading `Storage Pool Name:` key, leaving key `ame`. -/
def POOLS_SPLIT_STR : Str := str "Storage Pool N"

/-- Modelled from the spec: block delimiter of `storage disk show` output;
eats the prefix of the leading `Disk:` key, leaving key `k`. -/
def DISK_SPLIT_STR : Str := str "Dis"

/-- Modelled from the spec: block delimiter of controller detail output. -/
def CONTROLLER_SPLIT_STR : Str := str "Node"

/-- Modelled from the spec: block delimiter of the event-log and alert-log
outputs (the handler uses the same constant for both streams). -/
def ALTER_SPLIT_STR : Str := str "----"

/-- Modelled from the spec: block delimiter of filesystem detail output. -/
def FS_SPLIT_STR : Str := str "Vserver"

/-- Canonical status strings (`delfin.common.constants`, modelled from the
spec's status enumerations). -/
def ST_NORMAL : Str := str "normal"

def ST_ABNORMAL : Str := str "abnormal"

def ST_OFFLINE : Str := str "offline"

def SEV_CRITICAL : Str := str "critical"

def CAT_EVENT : Str := str "event"

def CAT_FAULT : Str := str "fault"

def TYPE_EQUIPMENT_ALARM : Str := str "equipmentAlarm"

def DEFAULT_RESOURCE_TYPE : Str := str "storage"

def STORAGE_TYPE_UNIFIED : Str := str "unified"

def FS_TYPE_THICK : Str := str "thick"

def VOL_TYPE_THIN : Str := str "thin"

def STORAGE_VENDOR : Str := str "NetApp"

/-- Modelled from the spec: the fixed lookup table from vendor cluster
health codes to canonical storage status. -/
def STORAGE_STATUS : KVMap :=
  [(str "ok", ST_NORMAL), (str "ok-with-suppressed", ST_NORMAL),
   (str "degraded", ST_ABNORMAL), (str "unreachable", ST_OFFLINE)]

/-- Modelled from the spec: the fixed lookup table from vendor aggregate
state codes to canonical pool status (§4.1). -/
def AGGREGATE_STATUS : KVMap :=
  [(str "online", ST_NORMAL), (str "creating", ST_NORMAL),
   (str "mounting", ST_NORMAL), (str "relocating", ST_NORMAL),
   (str "offline", ST_OFFLINE), (str "unmounted", ST_OFFLINE),
   (str "restricted", ST_ABNORMAL), (str "partial", ST_ABNORMAL),
   (str "failed", ST_ABNORMAL)]

/-- Modelled from the spec: vendor disk container types to canonical
logical disk types. -/
def DISK_LOGICAL : KVMap :=
  [(str "aggregate", str "member"), (str "spare", str "spare"),
   (str "unassigned", str "free"), (str "broken", str "member")]

/-- Modelled from the spec: vendor physical disk types. -/
def DISK_TYPE : KVMap :=
  [(str "SAS", str "sas"), (str "SSD", str "ssd"), (str "FSAS", str "nl-sas")]

/-- Modelled from the spec: vendor volume states to canonical filesystem
status. -/
def FS_STATUS : KVMap :=
  [(str "online", ST_NORMAL), (str "offline", ST_OFFLINE),
   (str "error", ST_ABNORMAL)]

/-- Modelled from the spec: severity lookup table of the alert-log stream
(`constant.ALERT_SEVERITY`). -/
def ALERT_SEVERITY : KVMap :=
  [(str "Unknown", str "notSpecified"), (str "Other", str "notSpecified"),
   (str "Information", str "informational"), (str "Degraded", str "warning"),
   (str "Minor", str "minor"), (str "Major", str "major"),
   (str "Critical", SEV_CRITICAL), (str "Fatal/NonRecoverable", str "fatal")]

/-- Modelled from the spec: severity lookup table for trap alert names
(`constant.SEVERITY_MAP`): the names of the traps the driver recognizes. -/
def SEVERITY_MAP : KVMap :=
  [(str "DiskFailedAlarm", SEV_CRITICAL), (str "DiskRepairedAlarm", SEV_CRITICAL),
   (str "RaidReconstructionAlarm", SEV_CRITICAL)]

/-- Python `str(i)` for an integer. -/
def pyStrOfInt (i : Int) : Str :=
  match i with
  | .ofNat n => Nat.toDigits 10 n
  | .negSucc n => '-' :: Nat.toDigits 10 (n + 1)

/-- External library operations used by the handler, abstracted as
parameters of the embedding: `hashlib.md5(...).hexdigest()` and
`time.strptime`/`time.mktime` with the two fixed vendor date-format strings
(spec §4.1: timestamps are converted to Unix seconds; the claims do not
depend on the concrete format). -/
structure Libs where
  md5hex : Str → Str
  parseEventTime : Str → Except PErr Int
  parseAlertTime : Str → Except PErr Int

/-- The raw output of each fixed CLI command the handler issues, i.e. the
behaviour of `self.ssh_pool.do_exec` on the command set of
`netapp_handler.py`. -/
structure ShellOut where
  cluster_show : Str
  version_show : Str
  status_show : Str
  controller_show : Str
  aggregate_show : Str
  pools_show : Str
  disk_show : Str
  disk_physical : Str
  event_show : Str
  alert_show : Str
  fs_show : Str
  thin_fs_show : Str

/-- Canonical pool record built by `get_aggregate`/`get_pool`. -/
structure PoolModel where
  name : Str
  storage_id : Option Str
  native_storage_pool_id : Str
  description : Str
  status : Option Str
  storage_type : Str
  total_capacity : Int
  used_capacity : Int
  free_capacity : Int
  deriving DecidableEq, Repr

/-- One iteration of the `get_aggregate` loop (netapp_handler.py:139-156):
extends the shared key/value map `agg_map` with the current block and builds
one pool record from it. -/
def aggBlockStep (storage_id : Option Str) (m : KVMap) (agg : Str) :
    Except PErr (KVMap × List PoolModel) := do
  let agg_map := split_value_map agg m
  let state ← kvIndex agg_map (str "State")
  let status := kvGet? AGGREGATE_STATUS state
  let name ← kvIndex agg_map (str "e")
  let uuid ← kvIndex agg_map (str "UUIDString")
  let total ← get_capacity_size (← kvIndex agg_map (str "Size"))
  let used ← get_capacity_size (← kvIndex agg_map (str "UsedSize"))
  let free ← get_capacity_size (← kvIndex agg_map (str "AvailableSize"))
  let pool_model : PoolModel :=
    { name := name, storage_id := storage_id,
      native_storage_pool_id := uuid, description := [],
      status := status, storage_type := STORAGE_TYPE_UNIFIED,
      total_capacity := total, used_capacity := used,
      free_capacity := free }
  return (agg_map, [pool_model])

/-- `NetAppHandler.get_aggregate` (netapp_handler.py:132-157): splits the
aggregate command output into blocks, discards the header block (index 0),
and runs `aggBlockStep` over the rest with one shared key/value map. -/
def get_aggregate (o : ShellOut) (storage_id : Option Str) :
    Except PErr (List PoolModel) := do
  let agg_array := pySplit o.aggregate_show AGGREGATE_SPLIT_STR
  let res ← agg_array.tail.foldlM (StepFold (aggBlockStep storage_id)) ([], [])
  return res.2

/-- One iteration of the `get_pool` loop (netapp_handler.py:165-189):
extends the shared key/value map `pool_map` with the current block and
builds one pool record from it; the status is `normal` exactly when the
health flag is the string `true`, else `abnormal`. -/
def poolBlockStep (storage_id : Option Str) (m : KVMap) (pool_str : Str) :
    Except PErr (KVMap × List PoolModel) := do
  let pool_map := split_value_map pool_str m
  let healthy ← kvIndex pool_map (str "IsPoolHealthy?")
  let status := if healthy = str "true" then ST_NORMAL else ST_ABNORMAL
  let name ← kvIndex pool_map (str "ame")
  let uuid ← kvIndex pool_map (str "UUIDofStoragePool")
  let total ← get_capacity_size (← kvIndex pool_map (str "StoragePoolTotalSize"))
  let usable ← get_capacity_size (← kvIndex pool_map (str "StoragePoolUsableSize"))
  let pool_model : PoolModel :=
    { name := name, storage_id := storage_id,
      native_storage_pool_id := uuid, description := [],
      status := some status, storage_type := STORAGE_TYPE_UNIFIED,
      total_capacity := total, used_capacity := total - usable,
      free_capacity := usable }
  return (pool_map, [pool_model])

/-- `NetAppHandler.get_pool` (netapp_handler.py:159-190): splits the storage
pool command output into blocks, discards the header block (index 0), and
runs `poolBlockStep` over the rest with one shared key/value map. -/
def get_pool (o : ShellOut) (storage_id : Option Str) :
    Except PErr (List PoolModel) := do
  let pool_array := pySplit o.pools_show POOLS_SPLIT_STR
  let res ← pool_array.tail.foldlM (StepFold (poolBlockStep storage_id)) ([], [])
  return res.2

/-- `NetAppHandler.list_storage_pools` (netapp_handler.py:192-206): the
pool-subtype records are fetched, then the aggregate-subtype records, and
the aggregate records concatenated in front of the pool records are
returned. -/
def list_storage_pools (o : ShellOut) (storage_id : Option Str) :
    Except PErr (List PoolModel) := do
  let pool_list ← get_pool o storage_id
  let agg_list ← get_aggregate o storage_id
  return agg_list ++ pool_list

/-- Canonical disk record built by `get_disks`. -/
structure DiskModel where
  name : Str
  storage_id : Option Str
  native_disk_id : Str
  serial_number : Str
  manufacturer : Str
  model : Str
  firmware : Option Str
  speed : Option Str
  capacity : Int
  status : Str
  physical_type : Option Str
  logical_type : Option Str
  health_score : Str
  native_disk_group_id : Str
  location : Str
  deriving DecidableEq, Repr

/-- Python `l[start::2]`: every second element from index `start` on. -/
def everyOther {α : Type} : List α → List α
  | [] => []
  | [x] => [x]
  | x :: _ :: rest => x :: everyOther rest

/-- The physical-attribute row matching the current disk: the first row of
more than 6 columns whose first column equals `disks_map['k']`; looking at
such a row evaluates `disks_map['k']` and can raise `KeyError`
(netapp_handler.py:383-389). -/
def findPhysical (m : KVMap) : List (List Str) → Except PErr (Option (List Str))
  | [] => .ok none
  | row :: rest =>
    if row.length > 6 then do
      let k ← kvIndex m (str "k")
      if row.headD [] = k then return (some row) else findPhysical m rest
    else findPhysical m rest

/-- `NetAppHandler.get_disks` (netapp_handler.py:364-412): joins the disk
detail blocks (shared key/value map `disks_map`) with the
whitespace-tokenized rows of the physical listing (every second line from
index 2 on); a disk with no matching physical row keeps `None` physical
attributes; status is `normal` exactly when the `Errors:` field is empty. -/
def get_disks (o : ShellOut) (storage_id : Option Str) :
    Except PErr (List DiskModel) := do
  let disks_array := pySplit o.disk_show DISK_SPLIT_STR
  let physical_array := pySplit o.disk_physical (str "\r\n")
  let physicals_list := (everyOther (physical_array.drop 2)).map pySplitWs
  let res ← disks_array.tail.foldlM
    (fun (st : KVMap × List DiskModel) disk_str => do
      let disks_map := split_value_map disk_str st.1
      let containerType ← kvIndex disks_map (str "ContainerType")
      let logical_type := kvGet? DISK_LOGICAL containerType
      let physMatch ← findPhysical disks_map physicals_list
      let physical_type := physMatch.bind (fun row => kvGet? DISK_TYPE (row.getD 1 []))
      let speed := physMatch.map (fun row => row.getD 5 [])
      let firmware := physMatch.map (fun row => row.getD 4 [])
      let errors ← kvIndex disks_map (str "Errors:")
      let status := if errors.isEmpty then ST_NORMAL else ST_ABNORMAL
      let k ← kvIndex disks_map (str "k")
      let serial ← kvIndex disks_map (str "SerialNumber")
      let vendor ← kvIndex disks_map (str "Vendor")
      let model ← kvIndex disks_map (str "Model")
      let capacity ← get_capacity_size (← kvIndex disks_map (str "PhysicalSize"))
      let aggregate ← kvIndex disks_map (str "Aggregate")
      let disk_model : DiskModel :=
        { name := k, storage_id := storage_id, native_disk_id := k,
          serial_number := serial, manufacturer := vendor, model := model,
          firmware := firmware, speed := speed, capacity := capacity,
          status := status, physical_type := physical_type,
          logical_type := logical_type, health_score := [],
          native_disk_group_id := aggregate, location := [] }
      return (disks_map, st.2 ++ [disk_model]))
    ([], [])
  return res.2

/-- Canonical storage record built by `get_storage`. -/
structure StorageModel where
  name : Str
  vendor : Str
  model : Str
  status : Option Str
  serial_number : Str
  firmware_version : Str
  location : Str
  total_capacity : Int
  raw_capacity : Int
  used_capacity : Int
  free_capacity : Int
  deriving DecidableEq, Repr

/-- `NetAppHandler.get_storage` (netapp_handler.py:78-130): issues the fixed
command set, sums `capacity` over the disks of `get_disks` into
`raw_capacity` and `total/free/used_capacity` over the pools of
`list_storage_pools`, and assembles the storage record from the parsed
cluster, controller, version and health outputs. -/
def netapp_get_storage (o : ShellOut) : Except PErr StorageModel := do
  let controller_array := pySplit o.controller_show CONTROLLER_SPLIT_STR
  let cblock ← listIndex controller_array 1
  let controller_map := split_value_map cblock []
  let version_array := pySplit o.version_show (str "\r\n")
  let version := pySplit (version_array.headD []) (str ":")
  let statusLine ← listIndex (pySplit o.status_show (str "\r\n")) 2
  let status := kvGet? STORAGE_STATUS statusLine
  let disk_list ← get_disks o none
  let pool_list ← list_storage_pools o none
  let storage_map := split_value_map o.cluster_show []
  let raw_capacity := disk_list.foldl (fun acc d => acc + d.capacity) 0
  let caps := pool_list.foldl
    (fun (acc : Int × Int × Int) p =>
      (acc.1 + p.total_capacity, acc.2.1 + p.free_capacity,
       acc.2.2 + p.used_capacity))
    (0, 0, 0)
  let name ← kvIndex storage_map (str "ClusterName")
  let model ← kvIndex controller_map (str "Model")
  let serial ← kvIndex storage_map (str "ClusterSerialNumber")
  let location ← kvIndex controller_map (str "Location")
  return { name := name, vendor := STORAGE_VENDOR, model := model,
           status := status, serial_number := serial,
           firmware_version := version.headD [], location := location,
           total_capacity := caps.1, raw_capacity := raw_capacity,
           used_capacity := caps.2.2, free_capacity := caps.2.1 }

/-- Canonical alert record built by `get_events`, `get_alerts` and
`parse_alert`. -/
structure AlertModel where
  alert_id : Str
  alert_name : Str
  severity : Str
  category : Str
  type : Str
  occur_time : Int
  description : Str
  match_key : Str
  resource_type : Str
  location : Str
  deriving DecidableEq, Repr

/-- The inclusive time-window test of `get_events`/`get_alerts`
(netapp_handler.py:276-279, 308-311): pass when no query was supplied,
else when `begin_time <= occur_time <= end_time`. -/
def inWindow (query : Option (Int × Int)) (t : Int) : Bool :=
  match query with
  | none => true
  | some (b, e) => b ≤ t && t ≤ e

/-- One iteration of the `get_events` loop (netapp_handler.py:271-294):
extends the shared key/value map `event_map` with the current block, parses
the occurrence time, and yields one alert record exactly when the time lies
in the caller's window. -/
def eventBlockStep (lib : Libs) (query : Option (Int × Int)) (m : KVMap)
    (event_str : Str) : Except PErr (KVMap × List AlertModel) := do
  let event_map := split_value_map event_str m
  let occur_time ← lib.parseEventTime (← kvIndex event_map (str "Time"))
  if inWindow query occur_time then
    let seq ← kvIndex event_map (str "Sequence#")
    let msgName ← kvIndex event_map (str "MessageName")
    let eventDesc ← kvIndex event_map (str "Event")
    let source ← kvIndex event_map (str "Source")
    let alert_model : AlertModel :=
      { alert_id := seq, alert_name := msgName,
        severity := SEV_CRITICAL, category := CAT_EVENT,
        type := TYPE_EQUIPMENT_ALARM, occur_time := occur_time,
        description := eventDesc,
        match_key := lib.md5hex (seq ++ pyStrOfInt occur_time),
        resource_type := DEFAULT_RESOURCE_TYPE, location := source }
    return (event_map, [alert_model])
  else
    return (event_map, [])

/-- `NetAppHandler.get_events` (netapp_handler.py:264-295): splits the
event-log output into blocks, discards the header block (index 0), and runs
`eventBlockStep` over the rest with one shared key/value map. -/
def get_events (lib : Libs) (o : ShellOut) (query : Option (Int × Int)) :
    Except PErr (List AlertModel) := do
  let event_array := pySplit o.event_show ALTER_SPLIT_STR
  let res ← event_array.tail.foldlM (StepFold (eventBlockStep lib query)) ([], [])
  return res.2

/-- One iteration of the `get_alerts` loop (netapp_handler.py:303-327):
extends the shared key/value map `alert_map` with the current block, parses
the indication time, and yields one alert record exactly when the time lies
in the caller's window; the severity comes from the `ALERT_SEVERITY` table
by a raising `[]` lookup. -/
def alertBlockStep (lib : Libs) (query : Option (Int × Int)) (m : KVMap)
    (alert_str : Str) : Except PErr (KVMap × List AlertModel) := do
  let alert_map := split_value_map alert_str m
  let occur_time ← lib.parseAlertTime (← kvIndex alert_map (str "IndicationTime"))
  if inWindow query occur_time then
    let alertId ← kvIndex alert_map (str "AlertID")
    let cause ← kvIndex alert_map (str "ProbableCause")
    let sevKey ← kvIndex alert_map (str "PerceivedSeverity")
    let severity ← kvIndex ALERT_SEVERITY sevKey
    let desc ← kvIndex alert_map (str "Description")
    let resName ← kvIndex alert_map (str "AlertingResourceName")
    let alert_model : AlertModel :=
      { alert_id := alertId, alert_name := cause,
        severity := severity, category := CAT_FAULT,
        type := TYPE_EQUIPMENT_ALARM, occur_time := occur_time,
        description := desc,
        match_key := lib.md5hex (alertId ++ pyStrOfInt occur_time),
        resource_type := DEFAULT_RESOURCE_TYPE, location := resName }
    return (alert_map, [alert_model])
  else
    return (alert_map, [])

/-- `NetAppHandler.get_alerts` (netapp_handler.py:297-328): splits the
alert-log output into blocks, discards the header block (index 0), and runs
`alertBlockStep` over the rest with one shared key/value map. -/
def get_alerts (lib : Libs) (o : ShellOut) (query : Option (Int × Int)) :
    Except PErr (List AlertModel) := do
  let alert_array := pySplit o.alert_show ALTER_SPLIT_STR
  let res ← alert_array.tail.foldlM (StepFold (alertBlockStep lib query)) ([], [])
  return res.2

/-- `NetAppHandler.list_alerts` (netapp_handler.py:330-346): the event-log
records followed by the alert-log records. -/
def list_alerts (lib : Libs) (o : ShellOut) (query : Option (Int × Int)) :
    Except PErr (List AlertModel) := do
  let events ← get_events lib o query
  let alerts ← get_alerts lib o query
  return events ++ alerts

/-- `NetAppHandler.parse_alert` (netapp_handler.py:39-68), the transform of
one trap payload.  `trapData` is `alert.get(OID_TRAP_DATA)` (`none` when the
OID is absent, in which case `None.split` raises and the wrapper re-raises
the classified parse failure); `now`/`nowRepr` are the two `time.time()`
reads.  A payload that does not split into more than one `:`-delimited
field, or whose alert name has no (truthy) entry in `SEVERITY_MAP`, yields
the empty model (`none`). -/
def parse_alert (lib : Libs) (now : Int) (nowRepr : Str) (trapData : Option Str) :
    Except PErr (Option AlertModel) := do
  match trapData with
  | none => .error .attributeError
  | some alert_info =>
    let alert_array := pySplit alert_info (str ":")
    if alert_array.length > 1 then
      let alert_name := alert_array.headD []
      let description := alert_array.getD 1 []
      if truthy (kvGet? SEVERITY_MAP alert_name) then
        return some
          { alert_id := alert_name, alert_name := alert_name,
            severity := SEV_CRITICAL, category := CAT_EVENT,
            type := TYPE_EQUIPMENT_ALARM, occur_time := now,
            description := description,
            match_key := lib.md5hex (alert_info ++ nowRepr),
            resource_type := DEFAULT_RESOURCE_TYPE, location := [] }
      else
        return none
    else
      return none

/-- Canonical filesystem record built by `get_filesystems`. -/
structure FSModel where
  name : Str
  storage_id : Option Str
  native_filesystem_id : Str
  native_pool_id : Str
  compressed : Bool
  deduplicated : Bool
  worm : Str
  status : Option Str
  type : Str
  total_capacity : Int
  used_capacity : Int
  free_capacity : Int
  deriving DecidableEq, Repr

/-- The pool-linkage loop of `get_filesystems`
(netapp_handler.py:431-433): the last pool whose name equals
`fs_map['AggregateName']` wins; the lookup of `AggregateName` is evaluated
once per pool and can raise `KeyError` only when the pool list is
non-empty. -/
def findPoolIdLoop (pools : List PoolModel) (m : KVMap) : Except PErr Str :=
  pools.foldlM
    (fun acc pool => do
      let aggName ← kvIndex m (str "AggregateName")
      if pool.name = aggName then return pool.native_storage_pool_id
      else return acc)
    []

/-- The thin-provisioning override loop of `get_filesystems`
(netapp_handler.py:437-442): rows from index 2 on with more than 4 columns
whose second column names the volume switch the type to thin. -/
def thinTypeLoop (thinRows : List Str) (m : KVMap) : Except PErr Str :=
  if thinRows.length > 2 then
    (thinRows.drop 2).foldlM
      (fun ty thin_vol => do
        let thin_array := pySplitWs thin_vol
        if thin_array.length > 4 then
          let volName ← kvIndex m (str "VolumeName")
          if thin_array.getD 1 [] = volName then return VOL_TYPE_THIN
          else return ty
        else return ty)
      FS_TYPE_THICK
  else .ok FS_TYPE_THICK

/-- `NetAppHandler.get_filesystems` (netapp_handler.py:414-467): one
filesystem record per block (shared key/value map `fs_map`), joined against
`list_storage_pools` by aggregate name and against the thin-provisioning
listing by volume name. -/
def get_filesystems (o : ShellOut) (storage_id : Option Str) :
    Except PErr (List FSModel) := do
  let fs_array := pySplit o.fs_show FS_SPLIT_STR
  let thin_fs_array := pySplit o.thin_fs_show (str "\r\n")
  let pool_list ← list_storage_pools o storage_id
  let res ← fs_array.tail.foldlM
    (fun (st : KVMap × List FSModel) fs_str => do
      let fs_map := split_value_map fs_str st.1
      let pool_id ← findPoolIdLoop pool_list fs_map
      let dedupVal ← kvIndex fs_map (str "SpaceSavedbyDeduplication")
      let deduplicated := ¬ (dedupVal = str "0B")
      let type ← thinTypeLoop thin_fs_array fs_map
      let compVal ← kvIndex fs_map (str "VolumeContainsSharedorCompressedData")
      let compressed := ¬ (compVal = str "false")
      let volState ← kvIndex fs_map (str "VolumeState")
      let status := kvGet? FS_STATUS volState
      let volName ← kvIndex fs_map (str "VolumeName")
      let worm ← kvIndex fs_map (str "SnapLockType")
      let total ← get_capacity_size (← kvIndex fs_map (str "VolumeSize"))
      let used ← get_capacity_size (← kvIndex fs_map (str "UsedSize"))
      let fs_model : FSModel :=
        { name := volName, storage_id := storage_id,
          native_filesystem_id := volName, native_pool_id := pool_id,
          compressed := compressed, deduplicated := deduplicated,
          worm := worm, status := status, type := type,
          total_capacity := total, used_capacity := used,
          free_capacity := total - used }
      return (fs_map, st.2 ++ [fs_model]))
    ([], [])
  return res.2

/-! ## The dolphin driver registry and task manager -/

/-- Errors of the dolphin registry/scheduler side.  `keyError` is the raw
`KeyError` of a dictionary `[]` lookup (`DRIVER_MAPPING`), re-raised
unchanged by `raise e`; `nameError` is the reference to the undefined
variable `register_info`; `attributeError` a missing method;
`unsupportedDeviceError` is the classified registration error the spec
names — the code never raises it. -/
inductive DolphinErr
  | keyError (k : Str)
  | importError
  | nameError
  | attributeError (name : Str)
  | storageNotFound
  | unsupportedDeviceError
  deriving DecidableEq, Repr

/-- The static driver class registry of `dolphin/drivers/manager.py:22-24`:
its only key is `"fake_storage"`. -/
def DRIVER_MAPPING : KVMap :=
  [(str "fake_storage", str "dolphin.drivers.fake_storage.FakeStorage")]

/-- A persisted Storage record (the fields `DriverManager` reads). -/
structure StorageRec where
  id : Nat
  manufacturer : Str
  model : Str
  deriving DecidableEq, Repr

/-- A registration request (the fields `DriverManager` reads). -/
structure RegisterInfo where
  manufacturer : Str
  model : Str
  deriving DecidableEq, Repr

/-- A live driver instance held in the registry cache. -/
structure DriverInst where
  cls : Str
  storage : Option StorageRec
  deriving DecidableEq, Repr

/-- The mutable state of a `DriverManager`: the `driver_factory` cache from
storage id to live driver instance. -/
structure DMState where
  driver_factory : List (Nat × DriverInst)
  deriving DecidableEq, Repr

/-- The external collaborators of `DriverManager`, abstracted:
`importutils.import_class`, the driver's registration hook, the id the
persistence layer assigns on create, the persisted Storage table, and the
reconstructed driver's `get_storage`. -/
structure DriverEnv where
  import_ok : Str → Bool
  register_storage_info : RegisterInfo → KVMap
  db_new_id : Nat
  db_storage : List (Nat × StorageRec)
  driver_storage_info : Nat → KVMap

/-- `DriverManager.register_storage` (dolphin/drivers/manager.py:32-54):
resolves `DRIVER_MAPPING[manufacturer + "_" + model]` (a raising `[]`
lookup), imports and constructs the driver, obtains the storage info from
the driver's registration hook, persists it, caches the driver under the
new storage id and returns the storage info.  Every exception is logged and
re-raised unchanged (`raise e`). -/
def dm_register_storage (env : DriverEnv) (st : DMState) (ri : RegisterInfo) :
    Except DolphinErr (KVMap × DMState) := do
  let driver_key := ri.manufacturer ++ str "_" ++ ri.model
  let path ←
    match kvGet? DRIVER_MAPPING driver_key with
    | some p => pure p
    | none => .error (.keyError driver_key)
  if env.import_ok path then
    let storage_info := env.register_storage_info ri
    let storage : StorageRec :=
      { id := env.db_new_id, manufacturer := ri.manufacturer, model := ri.model }
    let driver : DriverInst := { cls := path, storage := some storage }
    return (storage_info, { driver_factory := (storage.id, driver) :: st.driver_factory })
  else .error .importError

/-- `DriverManager.get_storage` (dolphin/drivers/manager.py:56-85): when the
id is cached the fetched driver is never returned — control falls past the
`if driver is None` block and the function returns `None`; when the id is
not cached, the persisted Storage is loaded, the driver reconstructed and
re-validated, and then the body references the undefined variable
`register_info`, raising `NameError` before the driver is cached or
anything is returned. -/
def dm_get_storage (env : DriverEnv) (st : DMState) (storage_id : Nat) :
    Except DolphinErr (Option KVMap × DMState) :=
  match st.driver_factory.find? (fun p => p.1 == storage_id) with
  | some _ => .ok (none, st)
  | none => do
    let storage ←
      match env.db_storage.find? (fun p => p.1 == storage_id) with
      | some p => pure p.2
      | none => .error .storageNotFound
    let driver_key := storage.manufacturer ++ str "_" ++ storage.model
    let _path ←
      match kvGet? DRIVER_MAPPING driver_key with
      | some p => pure p
      | none => .error (.keyError driver_key)
    if env.import_ok _path then
      let _storage_info := env.driver_storage_info storage_id
      .error .nameError
    else .error .importError

/-- The methods the `DriverManager` class defines
(dolphin/drivers/manager.py:27-91). -/
def driverManagerMethods : List Str :=
  [str "register_storage", str "get_storage", str "list_pools", str "list_volumes"]

/-- Python attribute lookup on a `DriverManager` instance: `AttributeError`
for any name that is not a defined method. -/
def dmGetAttr (name : Str) : Except DolphinErr Unit :=
  if name ∈ driverManagerMethods then .ok () else .error (.attributeError name)

/-- `TaskManager.remove_storage_in_cache` (dolphin/task_manager/manager.py:
81-86): constructs a fresh `DriverManager` (whose cache is empty) and calls
`drivers.remove_driver(storage_id)` — an attribute lookup for a method the
class does not define. -/
def remove_storage_in_cache (storage_id : Nat) : Except DolphinErr Unit := do
  let _drivers : DMState := { driver_factory := [] }
  let _ := storage_id
  dmGetAttr (str "remove_driver")

/-- The observable effects one scheduler tick can perform. -/
inductive TickEvent
  | importCls (path : Str)
  | construct (storage_id : Str)
  | acquireLock (name : Str)
  | releaseLock (name : Str)
  | syncCall
  | removeCall
  | rpcSayHello
  deriving DecidableEq, Repr

/-- `TaskManager.sync_storage_resource` (dolphin/task_manager/manager.py:
69-74) as the sequence of effects one invocation performs: resolve the task
class by name, construct it bound to the device, invoke `sync()`.  Nothing
else happens — in particular no lock is touched. -/
def sync_storage_resource (storage_id resource_task : Str) : List TickEvent :=
  [.importCls resource_task, .construct storage_id, .syncCall]

/-- `TaskManager._task_example` (dolphin/task_manager/manager.py:45-53), the
only task wrapped in `coordination.synchronized`: its lock name is the
fixed string `'lock-task-example'`, not scoped to any storage id or task
kind. -/
def task_example : List TickEvent :=
  [.acquireLock (str "lock-task-example"), .rpcSayHello,
   .releaseLock (str "lock-task-example")]

/-! ## Concrete fixtures -/

/-- A `ShellOut` with every command output empty. -/
def emptyShell : ShellOut := ⟨[], [], [], [], [], [], [], [], [], [], [], []⟩

/-- A concrete timestamp parser for fixtures: the timestamp string is a
plain decimal count of Unix seconds; anything else raises `ValueError`
(as `time.strptime` does on a format mismatch). -/
def parseDigitsTime (s : Str) : Except PErr Int :=
  match parseDecimalAux s 0 0 none with
  | some (n, 0) => .ok (Int.ofNat n)
  | _ => .error .valueError

/-- A concrete `Libs` instance for fixtures: the hash is injective on its
input (prefixing it), timestamps are decimal strings. -/
def fixLib : Libs :=
  { md5hex := fun s => str "h" ++ s,
    parseEventTime := parseDigitsTime,
    parseAlertTime := parseDigitsTime }

def clusterFix : Str := str "Cluster Name: cluster1\r\nCluster Serial Number: SN-C1"

def versionFix : Str := str "NetApp Release 9.8P1: Fri Sep 10\r\ncopyright"

def statusFix : Str := str "Status\r\n---\r\nok"

def controllerFix : Str := str "header\r\nNode one\r\nModel: FAS2750\r\nLocation: lab-1"

def aggFix : Str :=
  str "Aggr header\r\nAggregate: aggr0\r\n UUID String: uuid-a0\r\n Size: 10GB\r\n Used Size: 4GB\r\n Available Size: 6GB\r\n State: online"

def poolFix : Str :=
  str "Pool header\r\nStorage Pool Name: sp1\r\n UUID of Storage Pool: uuid-p1\r\n Is Pool Healthy?: true\r\n Storage Pool Total Size: 8GB\r\n Storage Pool Usable Size: 5GB"

def diskFix : Str :=
  str "Drive list\r\nDisk: 1.1\r\n Container Type: aggregate\r\n Errors:\r\n Serial Number: SN-D1\r\n Vendor: NETAPP\r\n Model: X357\r\n Physical Size: 2GB\r\n Aggregate: aggr0"

def physFix : Str :=
  str "DiskName Type RPM Container Firmware Speed Extra\r\n-------\r\n1.1 SAS 10000 aggr fw-NA01 10500 ok"

def eventFix : Str :=
  str "Events header\r\n----\r\nTime: 100\r\nSequence#: 11\r\nMessage Name: disk.fail\r\nEvent: Disk failed\r\nSource: node1\r\n----\r\nTime: 250\r\nSequence#: 12\r\nMessage Name: fan.warn\r\nEvent: Fan warning\r\nSource: node2"

def alertFix : Str :=
  str "Alerts header\r\n----\r\nAlert ID: A1\r\nIndication Time: 120\r\nProbable Cause: PSU fault\r\nPerceived Severity: Major\r\nDescription: Power supply fault\r\nAlerting Resource Name: psu1\r\n----\r\nAlert ID: A2\r\nIndication Time: 400\r\nProbable Cause: Overheat\r\nPerceived Severity: Critical\r\nDescription: Too hot\r\nAlerting Resource Name: temp1"

def fsFix : Str :=
  str "FS header\r\nVserver vs0\r\nVolume Name: vol1\r\nAggregate Name: aggr0\r\nVolume Size: 4GB\r\nUsed Size: 1GB\r\nVolume State: online\r\nSpace Saved by Deduplication: 0B\r\nVolume Contains Shared or Compressed Data: false\r\nSnapLock Type: non-snaplock"

/-- A full fixture transcript of every command the handler issues. -/
def fullShell : ShellOut :=
  { cluster_show := clusterFix, version_show := versionFix,
    status_show := statusFix, controller_show := controllerFix,
    aggregate_show := aggFix, pools_show := poolFix,
    disk_show := diskFix, disk_physical := physFix,
    event_show := eventFix, alert_show := alertFix,
    fs_show := fsFix, thin_fs_show := [] }

/-- The aggregate-subtype records `get_aggregate` yields on `fullShell`. -/
def aggListFix : List PoolModel :=
  [{ name := str "aggr0", storage_id := none,
     native_storage_pool_id := str "uuid-a0", description := [],
     status := some ST_NORMAL, storage_type := STORAGE_TYPE_UNIFIED,
     total_capacity := 10737418240, used_capacity := 4294967296,
     free_capacity := 6442450944 }]

/-- The pool-subtype records `get_pool` yields on `fullShell`. -/
def poolListFix : List PoolModel :=
  [{ name := str "sp1", storage_id := none,
     native_storage_pool_id := str "uuid-p1", description := [],
     status := some ST_NORMAL, storage_type := STORAGE_TYPE_UNIFIED,
     total_capacity := 8589934592, used_capacity := 3221225472,
     free_capacity := 5368709120 }]

/-- The storage record `netapp_get_storage` yields on `fullShell`. -/
def storageFix : StorageModel :=
  { name := str "cluster1", vendor := STORAGE_VENDOR, model := str "FAS2750",
    status := some ST_NORMAL, serial_number := str "SN-C1",
    firmware_version := str "NetApp Release 9.8P1", location := str "lab-1",
    total_capacity := 19327352832, raw_capacity := 2147483648,
    used_capacity := 7516192768, free_capacity := 11811160064 }

/-- The first event record of `eventFix`. -/
def ev1Fix : AlertModel :=
  { alert_id := str "11", alert_name := str "disk.fail",
    severity := SEV_CRITICAL, category := CAT_EVENT,
    type := TYPE_EQUIPMENT_ALARM, occur_time := 100,
    description := str "Disk failed", match_key := str "h11100",
    resource_type := DEFAULT_RESOURCE_TYPE, location := str "node1" }

/-- The second event record of `eventFix`. -/
def ev2Fix : AlertModel :=
  { alert_id := str "12", alert_name := str "fan.warn",
    severity := SEV_CRITICAL, category := CAT_EVENT,
    type := TYPE_EQUIPMENT_ALARM, occur_time := 250,
    description := str "Fan warning", match_key := str "h12250",
    resource_type := DEFAULT_RESOURCE_TYPE, location := str "node2" }

/-- The first alert-log record of `alertFix`. -/
def a1Fix : AlertModel :=
  { alert_id := str "A1", alert_name := str "PSU fault",
    severity := str "major", category := CAT_FAULT,
    type := TYPE_EQUIPMENT_ALARM, occur_time := 120,
    description := str "Power supply fault", match_key := str "hA1120",
    resource_type := DEFAULT_RESOURCE_TYPE, location := str "psu1" }

/-- The second alert-log record of `alertFix`. -/
def a2Fix : AlertModel :=
  { alert_id := str "A2", alert_name := str "Overheat",
    severity := SEV_CRITICAL, category := CAT_FAULT,
    type := TYPE_EQUIPMENT_ALARM, occur_time := 400,
    description := str "Too hot", match_key := str "hA2400",
    resource_type := DEFAULT_RESOURCE_TYPE, location := str "temp1" }

/-- The shared second aggregate block of the inheritance fixtures: it has
no `State:` line. -/
def aggBlockTwo : Str :=
  str "Aggregate: aggr2\r\n UUID String: u2\r\n Size: 2GB\r\n Used Size: 1GB\r\n Available Size: 1GB"

/-- Aggregate output whose second block (`aggBlockTwo`) has no `State:`
line. -/
def aggInherit : Str :=
  str "Aggr header\r\nAggregate: aggr1\r\n UUID String: u1\r\n Size: 1GB\r\n Used Size: 1GB\r\n Available Size: 0GB\r\n State: online\r\n" ++ aggBlockTwo

/-- Same as `aggInherit` with the first block offline: the second block is
the byte-identical `aggBlockTwo` in both fixtures. -/
def aggInheritAlt : Str :=
  str "Aggr header\r\nAggregate: aggr1\r\n UUID String: u1\r\n Size: 1GB\r\n Used Size: 1GB\r\n Available Size: 0GB\r\n State: offline\r\n" ++ aggBlockTwo

/-- The shared second pool block of the inheritance fixtures: it has no
health-flag line. -/
def poolBlockTwo : Str :=
  str "Storage Pool Name: p2\r\n UUID of Storage Pool: u2\r\n Storage Pool Total Size: 2GB\r\n Storage Pool Usable Size: 1GB"

/-- Pool output whose second block (`poolBlockTwo`) has no health-flag
line. -/
def poolInherit : Str :=
  str "Pool header\r\nStorage Pool Name: p1\r\n UUID of Storage Pool: u1\r\n Is Pool Healthy?: true\r\n Storage Pool Total Size: 1GB\r\n Storage Pool Usable Size: 1GB\r\n" ++ poolBlockTwo

/-- Same as `poolInherit` with the first pool unhealthy; the second block is
the byte-identical `poolBlockTwo`. -/
def poolInheritAlt : Str :=
  str "Pool header\r\nStorage Pool Name: p1\r\n UUID of Storage Pool: u1\r\n Is Pool Healthy?: false\r\n Storage Pool Total Size: 1GB\r\n Storage Pool Usable Size: 1GB\r\n" ++ poolBlockTwo

/-- The shared second disk block of the inheritance fixtures: it has no
serial-number line. -/
def diskBlockTwo : Str :=
  str "Disk: d2\r\n Container Type: spare\r\n Errors:\r\n Vendor: V\r\n Model: M\r\n Physical Size: 1GB\r\n Aggregate: a"

/-- Disk output whose second block (`diskBlockTwo`) has no serial-number
line. -/
def diskInherit : Str :=
  str "Drive list\r\nDisk: d1\r\n Container Type: spare\r\n Errors:\r\n Serial Number: SN-1\r\n Vendor: V\r\n Model: M\r\n Physical Size: 1GB\r\n Aggregate: a\r\n" ++ diskBlockTwo

/-- Same as `diskInherit` with a different first serial number; the second
block is the byte-identical `diskBlockTwo`. -/
def diskInheritAlt : Str :=
  str "Drive list\r\nDisk: d1\r\n Container Type: spare\r\n Errors:\r\n Serial Number: SN-9\r\n Vendor: V\r\n Model: M\r\n Physical Size: 1GB\r\n Aggregate: a\r\n" ++ diskBlockTwo

/-- The shared second filesystem block of the inheritance fixtures: it has
no volume-state line. -/
def fsBlockTwo : Str :=
  str "Vserver vs0\r\nVolume Name: v2\r\nVolume Size: 2GB\r\nUsed Size: 1GB\r\nSpace Saved by Deduplication: 0B\r\nVolume Contains Shared or Compressed Data: false\r\nSnapLock Type: none"

/-- Filesystem output whose second block (`fsBlockTwo`) has no volume-state
line. -/
def fsInherit : Str :=
  str "FS header\r\nVserver vs0\r\nVolume Name: v1\r\nVolume Size: 1GB\r\nUsed Size: 1GB\r\nVolume State: online\r\nSpace Saved by Deduplication: 0B\r\nVolume Contains Shared or Compressed Data: false\r\nSnapLock Type: none\r\n" ++ fsBlockTwo

/-- Same as `fsInherit` with the first volume offline; the second block is
the byte-identical `fsBlockTwo`. -/
def fsInheritAlt : Str :=
  str "FS header\r\nVserver vs0\r\nVolume Name: v1\r\nVolume Size: 1GB\r\nUsed Size: 1GB\r\nVolume State: offline\r\nSpace Saved by Deduplication: 0B\r\nVolume Contains Shared or Compressed Data: false\r\nSnapLock Type: none\r\n" ++ fsBlockTwo

/-- Aggregate output whose single block carries a state code unknown to the
`AGGREGATE_STATUS` table. -/
def aggUnknown : Str :=
  str "Aggr header\r\nAggregate: aggrX\r\n UUID String: uX\r\n Size: 1GB\r\n Used Size: 0GB\r\n Available Size: 1GB\r\n State: mystery"

/-- A concrete registry environment: every class path imports, the database
holds one persisted Storage (id 1) of the supported `fake`/`storage`
device. -/
def fixEnv : DriverEnv :=
  { import_ok := fun _ => true,
    register_storage_info := fun _ => [],
    db_new_id := 7,
    db_storage := [(1, { id := 1, manufacturer := str "fake", model := str "storage" })],
    driver_storage_info := fun _ => [] }

/-- A registry cache holding a live driver for storage id 2. -/
def fixDMState : DMState :=
  { driver_factory :=
      [(2, { cls := str "dolphin.drivers.fake_storage.FakeStorage",
             storage := none })] }

/-! ## Helper lemmas -/

theorem except_bind_ok {ε α β : Type} (x : Except ε α) (f : α → Except ε β) (b : β) :
    (x >>= f) = .ok b ↔ ∃ a, x = .ok a ∧ f a = .ok b := by
  cases x with
  | error e => simp [Bind.bind, Except.bind]
  | ok a => simp [Bind.bind, Except.bind]

theorem except_pure_ok {ε α : Type} (a b : α) :
    (pure a : Except ε α) = .ok b ↔ a = b := by
  simp [pure, Except.pure]

theorem foldl_add_capacity (l : List DiskModel) (n : Int) :
    l.foldl (fun acc d => acc + d.capacity) n = n + (l.map (·.capacity)).sum := by
  induction l generalizing n with
  | nil => simp
  | cons d ds ih => simp [List.foldl_cons, ih, add_assoc]

theorem foldl_pool_caps (l : List PoolModel) (a b c : Int) :
    l.foldl
      (fun (acc : Int × Int × Int) p =>
        (acc.1 + p.total_capacity, acc.2.1 + p.free_capacity,
         acc.2.2 + p.used_capacity))
      (a, b, c) =
      (a + (l.map (·.total_capacity)).sum, b + (l.map (·.free_capacity)).sum,
       c + (l.map (·.used_capacity)).sum) := by
  induction l generalizing a b c with
  | nil => simp
  | cons p ps ih => simp [List.foldl_cons, ih, add_assoc]

theorem foldl_pool_caps0 (l : List PoolModel) :
    l.foldl
      (fun (acc : Int × Int × Int) p =>
        (acc.1 + p.total_capacity, acc.2.1 + p.free_capacity,
         acc.2.2 + p.used_capacity))
      0 =
      ((l.map (·.total_capacity)).sum, (l.map (·.free_capacity)).sum,
       (l.map (·.used_capacity)).sum) := by
  have h := foldl_pool_caps l 0 0 0
  simpa using h

theorem stepfold_acc {σ ρ : Type} (g : σ → Str → Except PErr (σ × List ρ)) :
    ∀ (bs : List Str) (s : σ) (acc : List ρ) (s' : σ) (out : List ρ),
      List.foldlM (StepFold g) (s, acc) bs = .ok (s', out) →
      ∃ new, out = acc ++ new ∧
        ∀ acc', List.foldlM (StepFold g) (s, acc') bs = .ok (s', acc' ++ new) := by
  intro bs
  induction bs with
  | nil =>
    intro s acc s' out h
    simp only [List.foldlM_nil, except_pure_ok, Prod.mk.injEq] at h
    obtain ⟨hs, hout⟩ := h
    exact ⟨[], by simp [← hout], fun acc' => by
      simp [List.foldlM_nil, except_pure_ok, hs]⟩
  | cons blk bs ih =>
    intro s acc s' out h
    simp only [List.foldlM_cons] at h
    rw [except_bind_ok] at h
    obtain ⟨st1, hst1, hrest⟩ := h
    cases hg : g s blk with
    | error e => simp [StepFold, hg, Except.map] at hst1
    | ok r =>
      have hst1' : st1 = (r.1, acc ++ r.2) := by
        simpa [StepFold, hg, Except.map] using hst1.symm
      subst hst1'
      obtain ⟨new, hout, hall⟩ := ih r.1 (acc ++ r.2) s' out hrest
      refine ⟨r.2 ++ new, by simp [hout], fun acc' => ?_⟩
      simp only [List.foldlM_cons]
      rw [except_bind_ok]
      exact ⟨(r.1, acc' ++ r.2), by simp [StepFold, hg, Except.map],
        by simpa [List.append_assoc] using hall (acc' ++ r.2)⟩

theorem stepfold_rel {σ ρ : Type} (g₁ g₂ : σ → Str → Except PErr (σ × List ρ))
    (w : ρ → Bool)
    (hrel : ∀ s blk s' o, g₁ s blk = .ok (s', o) → g₂ s blk = .ok (s', o.filter w)) :
    ∀ (bs : List Str) (s s' : σ) (out : List ρ),
      List.foldlM (StepFold g₁) (s, []) bs = .ok (s', out) →
      List.foldlM (StepFold g₂) (s, []) bs = .ok (s', out.filter w) := by
  intro bs
  induction bs with
  | nil =>
    intro s s' out h
    simp only [List.foldlM_nil, except_pure_ok, Prod.mk.injEq] at h ⊢
    exact ⟨h.1, by simp [← h.2]⟩
  | cons blk bs ih =>
    intro s s' out h
    simp only [List.foldlM_cons] at h ⊢
    rw [except_bind_ok] at h
    obtain ⟨st1, hst1, hrest⟩ := h
    cases hg : g₁ s blk with
    | error e => simp [StepFold, hg, Except.map] at hst1
    | ok r =>
      have hst1' : st1 = (r.1, [] ++ r.2) := by
        simpa [StepFold, hg, Except.map] using hst1.symm
      subst hst1'
      obtain ⟨new, hout, hall⟩ := stepfold_acc g₁ bs r.1 ([] ++ r.2) s' out hrest
      have h0 : List.foldlM (StepFold g₁) (r.1, []) bs = .ok (s', [] ++ new) :=
        hall []
      have h2 : List.foldlM (StepFold g₂) (r.1, []) bs =
          .ok (s', ([] ++ new).filter w) := ih r.1 s' ([] ++ new) h0
      have hg2 : g₂ s blk = .ok (r.1, r.2.filter w) := hrel s blk r.1 r.2 hg
      rw [except_bind_ok]
      refine ⟨(r.1, [] ++ r.2.filter w), by simp [StepFold, hg2, Except.map], ?_⟩
      obtain ⟨new₂, hnew₂, hall₂⟩ :=
        stepfold_acc g₂ bs r.1 [] s' (([] ++ new).filter w) h2
      have hx := hall₂ ([] ++ r.2.filter w)
      simp only [List.nil_append] at hnew₂ hout hx ⊢
      rw [hx, ← hnew₂, hout, List.filter_append]

theorem stepfold_all {σ ρ : Type} (g : σ → Str → Except PErr (σ × List ρ))
    (P : ρ → Prop)
    (hP : ∀ s blk s' o, g s blk = .ok (s', o) → ∀ r ∈ o, P r) :
    ∀ (bs : List Str) (s s' : σ) (out : List ρ),
      List.foldlM (StepFold g) (s, []) bs = .ok (s', out) → ∀ r ∈ out, P r := by
  intro bs
  induction bs with
  | nil =>
    intro s s' out h
    simp only [List.foldlM_nil, except_pure_ok, Prod.mk.injEq] at h
    simp [← h.2]
  | cons blk bs ih =>
    intro s s' out h
    simp only [List.foldlM_cons] at h
    rw [except_bind_ok] at h
    obtain ⟨st1, hst1, hrest⟩ := h
    cases hg : g s blk with
    | error e => simp [StepFold, hg, Except.map] at hst1
    | ok r =>
      have hst1' : st1 = (r.1, [] ++ r.2) := by
        simpa [StepFold, hg, Except.map] using hst1.symm
      subst hst1'
      obtain ⟨new, hout, hall⟩ := stepfold_acc g bs r.1 ([] ++ r.2) s' out hrest
      intro x hx
      rw [hout] at hx
      simp only [List.nil_append, List.mem_append] at hx
      cases hx with
      | inl hx => exact hP s blk r.1 r.2 hg x hx
      | inr hx =>
        have h0 := hall []
        simp only [List.nil_append] at h0
        exact ih r.1 s' new h0 x hx

theorem kvGet?_any (m : KVMap) (k v : Str) (h : kvGet? m k = some v) :
    m.any (fun kv => kv.2 == v) = true := by
  unfold kvGet? at h
  cases hf : m.find? (fun p => p.1 == k) with
  | none => simp [hf] at h
  | some kv =>
    rw [hf] at h
    have hv : kv.2 = v := by simpa using h
    have hmem := List.mem_of_find?_eq_some hf
    rw [List.any_eq_true]
    exact ⟨kv, hmem, by simp [hv]⟩

/-! ## Per-step lemmas for the alert streams and pool statuses -/

theorem eventBlockStep_rel (lib : Libs) (q : Option (Int × Int)) :
    ∀ s blk s' o, eventBlockStep lib none s blk = .ok (s', o) →
      eventBlockStep lib q s blk =
        .ok (s', o.filter (fun r => inWindow q r.occur_time)) := by
  intro s blk s' o h
  unfold eventBlockStep at h ⊢
  rw [except_bind_ok] at h
  obtain ⟨ts, hts, h⟩ := h
  rw [except_bind_ok] at h
  obtain ⟨t, ht, h⟩ := h
  rw [except_bind_ok]
  refine ⟨ts, hts, ?_⟩
  rw [except_bind_ok]
  refine ⟨t, ht, ?_⟩
  rw [if_pos (show inWindow none t = true from rfl)] at h
  rw [except_bind_ok] at h
  obtain ⟨sq, hsq, h⟩ := h
  rw [except_bind_ok] at h
  obtain ⟨mn, hmn, h⟩ := h
  rw [except_bind_ok] at h
  obtain ⟨ds, hds, h⟩ := h
  rw [except_bind_ok] at h
  obtain ⟨src, hsrc, h⟩ := h
  rw [except_pure_ok] at h
  rw [Prod.mk.injEq] at h
  obtain ⟨hs', ho⟩ := h
  cases hw : inWindow q t with
  | true =>
    rw [if_pos (show (true : Bool) = true from rfl)]
    rw [except_bind_ok]
    refine ⟨sq, hsq, ?_⟩
    rw [except_bind_ok]
    refine ⟨mn, hmn, ?_⟩
    rw [except_bind_ok]
    refine ⟨ds, hds, ?_⟩
    rw [except_bind_ok]
    refine ⟨src, hsrc, ?_⟩
    rw [except_pure_ok, Prod.mk.injEq]
    exact ⟨hs', by rw [← ho]; simp [List.filter, hw]⟩
  | false =>
    rw [if_neg (show ¬ (false : Bool) = true by simp)]
    rw [except_pure_ok, Prod.mk.injEq]
    exact ⟨hs', by rw [← ho]; simp [List.filter, hw]⟩

theorem alertBlockStep_rel (lib : Libs) (q : Option (Int × Int)) :
    ∀ s blk s' o, alertBlockStep lib none s blk = .ok (s', o) →
      alertBlockStep lib q s blk =
        .ok (s', o.filter (fun r => inWindow q r.occur_time)) := by
  intro s blk s' o h
  unfold alertBlockStep at h ⊢
  rw [except_bind_ok] at h
  obtain ⟨ts, hts, h⟩ := h
  rw [except_bind_ok] at h
  obtain ⟨t, ht, h⟩ := h
  rw [except_bind_ok]
  refine ⟨ts, hts, ?_⟩
  rw [except_bind_ok]
  refine ⟨t, ht, ?_⟩
  rw [if_pos (show inWindow none t = true from rfl)] at h
  rw [except_bind_ok] at h
  obtain ⟨aid, haid, h⟩ := h
  rw [except_bind_ok] at h
  obtain ⟨cse, hcse, h⟩ := h
  rw [except_bind_ok] at h
  obtain ⟨sk, hsk, h⟩ := h
  rw [except_bind_ok] at h
  obtain ⟨sev, hsev, h⟩ := h
  rw [except_bind_ok] at h
  obtain ⟨dsc, hdsc, h⟩ := h
  rw [except_bind_ok] at h
  obtain ⟨rn, hrn, h⟩ := h
  rw [except_pure_ok] at h
  rw [Prod.mk.injEq] at h
  obtain ⟨hs', ho⟩ := h
  cases hw : inWindow q t with
  | true =>
    rw [if_pos (show (true : Bool) = true from rfl)]
    rw [except_bind_ok]
    refine ⟨aid, haid, ?_⟩
    rw [except_bind_ok]
    refine ⟨cse, hcse, ?_⟩
    rw [except_bind_ok]
    refine ⟨sk, hsk, ?_⟩
    rw [except_bind_ok]
    refine ⟨sev, hsev, ?_⟩
    rw [except_bind_ok]
    refine ⟨dsc, hdsc, ?_⟩
    rw [except_bind_ok]
    refine ⟨rn, hrn, ?_⟩
    rw [except_pure_ok, Prod.mk.injEq]
    exact ⟨hs', by rw [← ho]; simp [List.filter, hw]⟩
  | false =>
    rw [if_neg (show ¬ (false : Bool) = true by simp)]
    rw [except_pure_ok, Prod.mk.injEq]
    exact ⟨hs', by rw [← ho]; simp [List.filter, hw]⟩

theorem get_events_filter (lib : Libs) (o : ShellOut) (q : Option (Int × Int))
    (l0 : List AlertModel) (h : get_events lib o none = .ok l0) :
    get_events lib o q = .ok (l0.filter (fun r => inWindow q r.occur_time)) := by
  unfold get_events at h ⊢
  rw [except_bind_ok] at h
  obtain ⟨res, hres, hpure⟩ := h
  rw [except_pure_ok] at hpure
  cases res with
  | mk msf lf =>
    have hrel := stepfold_rel (eventBlockStep lib none) (eventBlockStep lib q)
      (fun r => inWindow q r.occur_time) (eventBlockStep_rel lib q)
      (pySplit o.event_show ALTER_SPLIT_STR).tail [] msf lf hres
    rw [except_bind_ok]
    exact ⟨(msf, lf.filter (fun r => inWindow q r.occur_time)), hrel, by
      rw [except_pure_ok]
      exact congrArg (List.filter (fun r => inWindow q r.occur_time)) hpure⟩

theorem get_alerts_filter (lib : Libs) (o : ShellOut) (q : Option (Int × Int))
    (a0 : List AlertModel) (h : get_alerts lib o none = .ok a0) :
    get_alerts lib o q = .ok (a0.filter (fun r => inWindow q r.occur_time)) := by
  unfold get_alerts at h ⊢
  rw [except_bind_ok] at h
  obtain ⟨res, hres, hpure⟩ := h
  rw [except_pure_ok] at hpure
  cases res with
  | mk msf lf =>
    have hrel := stepfold_rel (alertBlockStep lib none) (alertBlockStep lib q)
      (fun r => inWindow q r.occur_time) (alertBlockStep_rel lib q)
      (pySplit o.alert_show ALTER_SPLIT_STR).tail [] msf lf hres
    rw [except_bind_ok]
    exact ⟨(msf, lf.filter (fun r => inWindow q r.occur_time)), hrel, by
      rw [except_pure_ok]
      exact congrArg (List.filter (fun r => inWindow q r.occur_time)) hpure⟩

theorem poolBlockStep_status (sid : Option Str) :
    ∀ s blk s' o, poolBlockStep sid s blk = .ok (s', o) →
      ∀ r ∈ o, (r.status == some ST_NORMAL || r.status == some ST_ABNORMAL) = true := by
  intro s blk s' o h r hr
  simp only [poolBlockStep, except_bind_ok, except_pure_ok, Prod.mk.injEq] at h
  obtain ⟨hl, hhl, nm, hnm, uu, huu, tk, htk, tt, htt, uk, huk, us, hus, hs', ho⟩ := h
  rw [← ho] at hr
  simp only [List.mem_singleton] at hr
  subst hr
  by_cases h' : hl = str "true" <;> simp [h']

theorem aggBlockStep_status (sid : Option Str) :
    ∀ s blk s' o, aggBlockStep sid s blk = .ok (s', o) →
      ∀ r ∈ o,
        (r.status == none
          || AGGREGATE_STATUS.any (fun kv => r.status == some kv.2)) = true := by
  intro s blk s' o h r hr
  simp only [aggBlockStep, except_bind_ok, except_pure_ok, Prod.mk.injEq] at h
  obtain ⟨st, hst, nm, hnm, uu, huu, tk, htk, tt, htt, uk, huk, us, hus, fk, hfk,
    fr, hfr, hs', ho⟩ := h
  rw [← ho] at hr
  simp only [List.mem_singleton] at hr
  subst hr
  cases hstat : kvGet? AGGREGATE_STATUS st with
  | none => simp [hstat]
  | some v =>
    have hany := kvGet?_any AGGREGATE_STATUS st v hstat
    rw [List.any_eq_true] at hany
    obtain ⟨kv, hkv, hkveq⟩ := hany
    have hveq : kv.2 = v := by simpa using hkveq
    simp only [hstat, Bool.or_eq_true, List.any_eq_true]
    exact Or.inr ⟨kv, hkv, by simp [hveq]⟩

/-! ## Claim theorems -/

/-- Claim C1 (code bug): `DriverManager.get_storage` neither returns the
cached driver nor caches and returns a reconstructed one.  For a cached id
(2) it returns `None` — the fetched driver is dropped because the only
`return` sits inside the `if driver is None` block; for an uncached id (1)
with a valid persisted record and an importable driver class, it raises
`NameError` on the undefined variable `register_info` before caching or
returning anything. -/
theorem C1_get_storage_bug :
    dm_get_storage fixEnv fixDMState 2 = .ok (none, fixDMState) ∧
    dm_get_storage fixEnv fixDMState 1 = .error DolphinErr.nameError :=
  ⟨rfl, rfl⟩

/-- Claim C2, counterexample: a trap payload whose data field contains no
`:` delimiter is structurally malformed in the claim's sense, yet
`parse_alert` returns the empty model instead of raising `ParseError`. -/
theorem C2_cex :
    parse_alert fixLib 5 (str "5.0") (some (str "malformedtrapdata")) = .ok none ∧
    (pySplit (str "malformedtrapdata") (str ":")).length = 1 := by
  exact ⟨rfl, rfl⟩

/-- Claim C2, amended: `parse_alert` raises the classified parse failure
exactly when the trap data field is missing (`None.split` raises); whenever
the field is present it returns without raising — the empty model unless
the data splits into more than one `:`-delimited field and the alert name
has a truthy entry in the severity table. -/
theorem C2_amended (lib : Libs) (now : Int) (nowRepr : Str) (info : Str) :
    parse_alert lib now nowRepr none = .error PErr.attributeError ∧
    (∃ r, parse_alert lib now nowRepr (some info) = .ok r) ∧
    (1 < (pySplit info (str ":")).length ∨
      parse_alert lib now nowRepr (some info) = .ok none) ∧
    (truthy (kvGet? SEVERITY_MAP ((pySplit info (str ":")).headD [])) = true ∨
      parse_alert lib now nowRepr (some info) = .ok none) := by
  have key : parse_alert lib now nowRepr (some info) =
      (if 1 < (pySplit info (str ":")).length then
        (if truthy (kvGet? SEVERITY_MAP ((pySplit info (str ":")).headD [])) = true
          then
          .ok (some
            { alert_id := (pySplit info (str ":")).headD [],
              alert_name := (pySplit info (str ":")).headD [],
              severity := SEV_CRITICAL, category := CAT_EVENT,
              type := TYPE_EQUIPMENT_ALARM, occur_time := now,
              description := (pySplit info (str ":")).getD 1 [],
              match_key := lib.md5hex (info ++ nowRepr),
              resource_type := DEFAULT_RESOURCE_TYPE, location := [] })
        else .ok none)
      else .ok none) := rfl
  refine ⟨rfl, ?_, ?_, ?_⟩
  · rw [key]
    by_cases h1 : 1 < (pySplit info (str ":")).length
    · rw [if_pos h1]
      by_cases h2 :
        truthy (kvGet? SEVERITY_MAP ((pySplit info (str ":")).headD [])) = true
      · rw [if_pos h2]
        exact ⟨_, rfl⟩
      · rw [if_neg h2]
        exact ⟨none, rfl⟩
    · rw [if_neg h1]
      exact ⟨none, rfl⟩
  · by_cases h1 : 1 < (pySplit info (str ":")).length
    · exact Or.inl h1
    · refine Or.inr ?_
      rw [key, if_neg h1]
  · by_cases h2 :
      truthy (kvGet? SEVERITY_MAP ((pySplit info (str ":")).headD [])) = true
    · exact Or.inl h2
    · refine Or.inr ?_
      rw [key]
      by_cases h1 : 1 < (pySplit info (str ":")).length
      · rw [if_pos h1, if_neg h2]
      · rw [if_neg h1]

/-- Claim C3, counterexample: registering a device with the unsupported
pair (`netapp`, `ontap`) makes `register_storage` re-raise the raw
`KeyError` of the `DRIVER_MAPPING` lookup, not a classified
`UnsupportedDeviceError`. -/
theorem C3_cex :
    dm_register_storage fixEnv { driver_factory := [] }
        { manufacturer := str "netapp", model := str "ontap" } =
      .error (DolphinErr.keyError (str "netapp_ontap")) ∧
    dm_register_storage fixEnv { driver_factory := [] }
        { manufacturer := str "netapp", model := str "ontap" } ≠
      .error DolphinErr.unsupportedDeviceError :=
  ⟨rfl, fun h => DolphinErr.noConfusion (Except.error.inj h)⟩

/-- Claim C3, amended: for every registration whose (manufacturer, model)
key has no entry in `DRIVER_MAPPING`, `register_storage` fails — but with
the raw `KeyError` of the dictionary lookup, re-raised unchanged by
`raise e`, never with `UnsupportedDeviceError`. -/
theorem C3_amended (env : DriverEnv) (st : DMState) (ri : RegisterInfo)
    (h : kvGet? DRIVER_MAPPING (ri.manufacturer ++ str "_" ++ ri.model) = none) :
    dm_register_storage env st ri =
      .error (DolphinErr.keyError (ri.manufacturer ++ str "_" ++ ri.model)) := by
  simp only [dm_register_storage]
  rw [h]
  rfl

theorem C3_witness :
    dm_register_storage fixEnv { driver_factory := [] }
        { manufacturer := str "huawei", model := str "dorado" } =
      .error (DolphinErr.keyError
        ((str "huawei") ++ str "_" ++ (str "dorado"))) :=
  C3_amended fixEnv { driver_factory := [] }
    { manufacturer := str "huawei", model := str "dorado" } (by decide)

/-- Claim C4, counterexample: an aggregate block whose vendor state code
(`mystery`) is unknown to the fixed `AGGREGATE_STATUS` table yields a pool
record with no status at all (`None`, the default of `dict.get`), not the
`abnormal` status the claim requires. -/
theorem C4_cex :
    (get_aggregate { emptyShell with aggregate_show := aggUnknown } none).map
        (List.map (·.status)) = .ok [none] ∧
    (none : Option Str) ≠ some ST_ABNORMAL := by
  refine ⟨rfl, by simp⟩

/-- Claim C4, amended: the pool subtype's status is computed from the health
flag and is `normal` or `abnormal` for every record (so unknown codes do
default to `abnormal` there), while the aggregate subtype's status is the
raw `AGGREGATE_STATUS.get` result: a value of the fixed table when the code
is known, and missing (`None`) — not `abnormal` — when the code is unknown;
a block with no state code at all raises instead of defaulting. -/
theorem C4_amended (o : ShellOut) (sid : Option Str) (lp la : List PoolModel)
    (hp : get_pool o sid = .ok lp) (ha : get_aggregate o sid = .ok la) :
    lp.all (fun r =>
      r.status == some ST_NORMAL || r.status == some ST_ABNORMAL) = true ∧
    la.all (fun r =>
      r.status == none
        || AGGREGATE_STATUS.any (fun kv => r.status == some kv.2)) = true := by
  constructor
  · rw [List.all_eq_true]
    intro r hr
    unfold get_pool at hp
    rw [except_bind_ok] at hp
    obtain ⟨res, hres, hpure⟩ := hp
    rw [except_pure_ok] at hpure
    cases res with
    | mk msf lf =>
      exact stepfold_all (poolBlockStep sid)
        (fun r =>
          (r.status == some ST_NORMAL || r.status == some ST_ABNORMAL) = true)
        (poolBlockStep_status sid) _ [] msf lf hres r
        (by have h2 : lf = lp := hpure; rw [h2]; exact hr)
  · rw [List.all_eq_true]
    intro r hr
    unfold get_aggregate at ha
    rw [except_bind_ok] at ha
    obtain ⟨res, hres, hpure⟩ := ha
    rw [except_pure_ok] at hpure
    cases res with
    | mk msf lf =>
      exact stepfold_all (aggBlockStep sid)
        (fun r =>
          (r.status == none
            || AGGREGATE_STATUS.any (fun kv => r.status == some kv.2)) = true)
        (aggBlockStep_status sid) _ [] msf lf hres r
        (by have h2 : lf = la := hpure; rw [h2]; exact hr)

theorem C4_witness :
    poolListFix.all (fun r =>
      r.status == some ST_NORMAL || r.status == some ST_ABNORMAL) = true ∧
    aggListFix.all (fun r =>
      r.status == none
        || AGGREGATE_STATUS.any (fun kv => r.status == some kv.2)) = true :=
  C4_amended fullShell none poolListFix aggListFix (by decide) (by decide)

/-- Claim C5: `list_storage_pools` returns exactly the aggregate-subtype
records concatenated with the pool-subtype records, so its length is the
sum of the two subtype counts, with no de-duplication or merging. -/
theorem C5_pools_concat (o : ShellOut) (sid : Option Str)
    (la lp : List PoolModel)
    (ha : get_aggregate o sid = .ok la) (hp : get_pool o sid = .ok lp) :
    list_storage_pools o sid = .ok (la ++ lp) ∧
      (la ++ lp).length = la.length + lp.length := by
  constructor
  · unfold list_storage_pools
    rw [except_bind_ok]
    refine ⟨lp, hp, ?_⟩
    rw [except_bind_ok]
    exact ⟨la, ha, by rw [except_pure_ok]⟩
  · simp

theorem C5_witness :
    list_storage_pools fullShell none = .ok (aggListFix ++ poolListFix) ∧
      (aggListFix ++ poolListFix).length = aggListFix.length + poolListFix.length :=
  C5_pools_concat fullShell none aggListFix poolListFix (by decide) (by decide)

/-- Claim C6: whenever `get_storage` returns a record, its `raw_capacity`
is the sum of the `capacity` of all disks `get_disks` returns, and its
`total/used/free_capacity` are the sums of the corresponding fields over
all pools `list_storage_pools` returns. -/
theorem C6_capacity_sums (o : ShellOut) (s : StorageModel)
    (h : netapp_get_storage o = .ok s) :
    ∃ dl pl, get_disks o none = .ok dl ∧ list_storage_pools o none = .ok pl ∧
      s.raw_capacity = (dl.map (·.capacity)).sum ∧
      s.total_capacity = (pl.map (·.total_capacity)).sum ∧
      s.used_capacity = (pl.map (·.used_capacity)).sum ∧
      s.free_capacity = (pl.map (·.free_capacity)).sum := by
  simp only [netapp_get_storage, except_bind_ok, except_pure_ok] at h
  obtain ⟨cb, hcb, sl, hsl, dl, hdl, pl, hpl, nm, hnm, md, hmd, sn, hsn, loc,
    hloc, hs⟩ := h
  refine ⟨dl, pl, hdl, hpl, ?_, ?_, ?_, ?_⟩ <;>
    rw [← hs] <;> simp [foldl_add_capacity, foldl_pool_caps0]

theorem C6_witness :
    ∃ dl pl, get_disks fullShell none = .ok dl ∧
      list_storage_pools fullShell none = .ok pl ∧
      storageFix.raw_capacity = (dl.map (·.capacity)).sum ∧
      storageFix.total_capacity = (pl.map (·.total_capacity)).sum ∧
      storageFix.used_capacity = (pl.map (·.used_capacity)).sum ∧
      storageFix.free_capacity = (pl.map (·.free_capacity)).sum :=
  C6_capacity_sums fullShell storageFix (by decide)

/-- Claim C7: with a `[begin_time, end_time]` query, each alert stream keeps
exactly the records whose occurrence time lies inclusively in the window
(stated against the unfiltered output of the same stream), and
`list_alerts` is always the event-log records followed by the alert-log
records with nothing removed or merged. -/
theorem C7_window_concat (lib : Libs) (o : ShellOut) (b e : Int)
    (q : Option (Int × Int)) (l0 a0 ev al : List AlertModel)
    (hE : get_events lib o none = .ok l0) (hA : get_alerts lib o none = .ok a0)
    (hev : get_events lib o q = .ok ev) (hal : get_alerts lib o q = .ok al) :
    get_events lib o (some (b, e)) =
      .ok (l0.filter (fun r =>
        decide (b ≤ r.occur_time) && decide (r.occur_time ≤ e))) ∧
    get_alerts lib o (some (b, e)) =
      .ok (a0.filter (fun r =>
        decide (b ≤ r.occur_time) && decide (r.occur_time ≤ e))) ∧
    list_alerts lib o q = .ok (ev ++ al) := by
  refine ⟨?_, ?_, ?_⟩
  · simpa [inWindow] using get_events_filter lib o (some (b, e)) l0 hE
  · simpa [inWindow] using get_alerts_filter lib o (some (b, e)) a0 hA
  · unfold list_alerts
    rw [except_bind_ok]
    refine ⟨ev, hev, ?_⟩
    rw [except_bind_ok]
    exact ⟨al, hal, by rw [except_pure_ok]⟩

theorem C7_witness :
    get_events fixLib fullShell (some (150, 300)) =
      .ok (([ev1Fix, ev2Fix]).filter
        (fun r => decide ((150 : Int) ≤ r.occur_time) &&
          decide (r.occur_time ≤ (300 : Int)))) ∧
    get_alerts fixLib fullShell (some (150, 300)) =
      .ok (([a1Fix, a2Fix]).filter
        (fun r => decide ((150 : Int) ≤ r.occur_time) &&
          decide (r.occur_time ≤ (300 : Int)))) ∧
    list_alerts fixLib fullShell (some (150, 300)) = .ok ([ev2Fix] ++ []) :=
  C7_window_concat fixLib fullShell 150 300 (some (150, 300)) [ev1Fix, ev2Fix]
    [a1Fix, a2Fix] [ev2Fix] [] (by decide) (by decide) (by decide) (by decide)

/-- Claim C8 (code bug): `TaskManager.remove_storage_in_cache` can never
evict anything — it calls `remove_driver` on a freshly constructed
`DriverManager`, but the class defines no such method, so every call raises
`AttributeError` instead of being a safe eviction. -/
theorem C8_remove_driver_missing :
    remove_storage_in_cache 42 =
      .error (DolphinErr.attributeError (str "remove_driver")) ∧
    (str "remove_driver") ∉ driverManagerMethods := by
  exact ⟨rfl, by decide⟩

set_option maxHeartbeats 4000000 in
/-- Claim C9: each of the four block parsers threads one shared key/value
map through all blocks of one command output, so a block missing a key
silently inherits the preceding block's value instead of failing or leaving
the field empty.  In each fixture pair the two inputs end in the
byte-identical second block (`aggBlockTwo`, `poolBlockTwo`, `diskBlockTwo`,
`fsBlockTwo`) and differ only in the block before it, yet the record built
for that identical block differs: its status (or serial number) is the one
inherited from the preceding block. -/
theorem C9_shared_map_inheritance :
    (get_aggregate { emptyShell with aggregate_show := aggInherit } none).map
        (List.map (·.status)) = .ok [some ST_NORMAL, some ST_NORMAL] ∧
    (get_aggregate { emptyShell with aggregate_show := aggInheritAlt } none).map
        (List.map (·.status)) = .ok [some ST_OFFLINE, some ST_OFFLINE] ∧
    (get_pool { emptyShell with pools_show := poolInherit } none).map
        (List.map (·.status)) = .ok [some ST_NORMAL, some ST_NORMAL] ∧
    (get_pool { emptyShell with pools_show := poolInheritAlt } none).map
        (List.map (·.status)) = .ok [some ST_ABNORMAL, some ST_ABNORMAL] ∧
    (get_disks { emptyShell with disk_show := diskInherit } none).map
        (List.map (·.serial_number)) = .ok [str "SN-1", str "SN-1"] ∧
    (get_disks { emptyShell with disk_show := diskInheritAlt } none).map
        (List.map (·.serial_number)) = .ok [str "SN-9", str "SN-9"] ∧
    (get_filesystems { emptyShell with fs_show := fsInherit } none).map
        (List.map (·.status)) = .ok [some ST_NORMAL, some ST_NORMAL] ∧
    (get_filesystems { emptyShell with fs_show := fsInheritAlt } none).map
        (List.map (·.status)) = .ok [some ST_OFFLINE, some ST_OFFLINE] := by
  exact ⟨rfl, rfl, rfl, rfl, rfl, rfl, rfl, rfl⟩

/-- Claim C10, counterexample: the tick that invokes `sync()`
(`sync_storage_resource`) performs no lock acquisition at all — its effect
trace contains a `sync()` call but zero acquire events. -/
theorem C10_cex :
    List.countP
        (fun ev => match ev with | TickEvent.acquireLock _ => true | _ => false)
        (sync_storage_resource (str "storage-1")
          (str "dolphin.task_manager.tasks.StorageDeviceTask")) = 0 ∧
    TickEvent.syncCall ∈
      sync_storage_resource (str "storage-1")
        (str "dolphin.task_manager.tasks.StorageDeviceTask") := by
  exact ⟨rfl, by decide⟩

/-- Claim C10, amended: for every storage id and task kind,
`sync_storage_resource` resolves the task class, constructs the task object
and invokes `sync()` exactly once, acquiring and releasing no lock
whatsoever — nothing serializes two concurrent invocations for the same
(storageId, taskKind) pair. -/
theorem C10_amended (sid task : Str) :
    List.countP
        (fun ev => match ev with | TickEvent.acquireLock _ => true | _ => false)
        (sync_storage_resource sid task) = 0 ∧
    List.countP
        (fun ev => match ev with | TickEvent.releaseLock _ => true | _ => false)
        (sync_storage_resource sid task) = 0 ∧
    List.countP (fun ev => ev == TickEvent.syncCall)
        (sync_storage_resource sid task) = 1 := by
  exact ⟨rfl, rfl, rfl⟩
